import Mathlib

/-!
Shallow embedding of the attribute-event processing pipeline of
`manager/server/src/main/java/org/openremote/manager/server/asset/AssetProcessingService.java`.

The service receives `AttributeEvent`s, validates them (future-timestamp check,
monotonicity check, constraint check via `AbstractAssetAttribute.setValue`),
mutates the attribute, wraps the result in an `AssetUpdate` and drives it
through an ordered list of consumers with short-circuit (`HANDLED`) and
escalation (`ERROR`) semantics.

Java `long` timestamps are modelled as `Int` (the sentinel for "never set" is
negative, typically `-1`).  Attribute values are modelled as `Int`; the payload
is opaque to the pipeline, which only ever stores it or hands it to the
attribute's own constraint check.  Thrown Java exceptions are modelled as
`String` messages.
-/

/-- Status of an `AssetUpdate` traversing the processing chain.  The class
`AssetUpdate.Status` is not under `src/`; modelled from the spec: states
`PENDING` (initial), `CONTINUE`, `RULES_HANDLED` (mentioned in the service
javadoc: processed by no more rule engines but continues through the chain),
`HANDLED`, `ERROR`, `COMPLETED`. -/
inductive Status where
  | PENDING
  | CONTINUE
  | RULES_HANDLED
  | HANDLED
  | ERROR
  | COMPLETED
deriving DecidableEq, Repr

/-- Well-known asset types relevant to the pipeline (`AssetType` is not under
`src/`; only `AGENT` is discriminated by the service, `THING` appears in the
javadoc). -/
inductive AssetType where
  | AGENT
  | THING
  | CUSTOM
deriving DecidableEq, Repr

/-- An immutable attribute event arriving at the boundary:
`entityId`, `attributeName`, a value and a producer-assigned timestamp
(milliseconds since epoch). -/
structure AttributeEvent where
  entityId : String
  attributeName : String
  value : Int
  timestamp : Int

/-- Mutable attribute snapshot.  The classes `AssetAttribute` /
`AbstractAssetAttribute` / `ThingAttribute` are not under `src/`; modelled from
the spec: `name`, `currentValue`, `lastUpdateTimestamp` (negative sentinel
means "never set"), the `readOnly` flag, a `linked` flag abstracting the
spec's `ResolveLink` collaborator (whether `ThingAttribute.get` resolves the
attribute to a valid, live agent link), and `accepts`, the attribute-defined
constraint predicate that `setValue` validates (type compatibility,
value-range or enum constraints). -/
structure AssetAttribute where
  name : String
  currentValue : Int
  lastUpdateTimestamp : Int
  readOnly : Bool
  linked : Bool
  accepts : Int → Bool

/-- A server-side asset: id, well-known type and its attribute collection
(`ServerAsset` is not under `src/`; modelled from the spec's
`FindAsset` collaborator contract). -/
structure ServerAsset where
  id : String
  wellKnownType : AssetType
  attributes : List AssetAttribute

/-- Snapshot of an attribute's state, as returned by
`AbstractAssetAttribute.getStateEvent()` (not under `src/`; modelled from the
spec: the attribute's current value together with its last update
timestamp). -/
structure AttributeState where
  value : Int
  timestamp : Int

def AssetAttribute.getStateEvent (a : AssetAttribute) : AttributeState :=
  { value := a.currentValue, timestamp := a.lastUpdateTimestamp }

/-- The Java `AbstractAssetAttribute.setValue(value, timestamp)` (not under
`src/`; modelled from the spec: attempt to apply the value to the attribute,
throwing `IllegalArgumentException` on a constraint violation).  `none` models
the thrown exception, `some` the mutated attribute. -/
def AssetAttribute.setValue (a : AssetAttribute) (v ts : Int) : Option AssetAttribute :=
  if a.accepts v then
    some { a with currentValue := v, lastUpdateTimestamp := ts }
  else
    none

/-- The per-event processing context (`AssetUpdate`, not under `src/`; modelled
from the spec: references the asset and the already-mutated attribute, the
event's new value and timestamp, the attribute's previous value/timestamp
captured before mutation, the northbound/southbound direction flag, a mutable
`status` and an optional captured error cause). -/
structure AssetUpdate where
  asset : ServerAsset
  attr : AssetAttribute
  value : Int
  timestamp : Int
  oldValue : Int
  oldTimestamp : Int
  northbound : Bool
  status : Status
  error : Option String

/-- Result of one consumer invocation on the shared context.  Per the spec's
consumer contract a consumer may read/mutate the context's `value` and
`status`; it may also throw.  `thrown` carries the context fields as mutated
up to the throw point together with the thrown cause (in Java the mutations
made before the throw persist on the shared object). -/
inductive ConsumerResult where
  | ok (value : Int) (status : Status)
  | thrown (value : Int) (status : Status) (cause : String)

/-- One stage of the processing chain: a named `Consumer<AssetUpdate>`. -/
structure Processor where
  name : String
  accept : AssetUpdate → ConsumerResult

/-- One loop iteration body of `processUpdate(AssetUpdate)` before the status
switch: invoke the consumer; on a throw, catch it, set `status = ERROR` and
attach the cause to the context (overwriting whatever status the consumer had
set before throwing). -/
def stepConsumer (p : Processor) (u : AssetUpdate) : AssetUpdate :=
  match p.accept u with
  | .ok v st => { u with value := v, status := st }
  | .thrown v _ t => { u with value := v, status := .ERROR, error := some t }

/-- Outcome of one pipeline traversal: either the loop finishes (normal return
after `setStatus(COMPLETED)`), or a `RuntimeException` naming the offending
processor and carrying the context's captured error as cause is thrown to the
caller (after the context's status was finalized to `COMPLETED`). -/
inductive ChainOutcome where
  | completed (final : AssetUpdate)
  | raised (processorName : String) (cause : Option String) (final : AssetUpdate)

/-- The consumer loop of `processUpdate(AssetUpdate)` (source lines 292-321):
for each processor in order, invoke it (catching throws via `stepConsumer`),
then switch on the status: `HANDLED` breaks the loop (the final
`setStatus(COMPLETED)` then runs); `ERROR` sets `COMPLETED` and throws a
`RuntimeException` identifying the processor with the context's error as
cause; otherwise continue with the next processor.  Exhausting the list sets
`COMPLETED`. -/
def runChain : List Processor → AssetUpdate → ChainOutcome
  | [], u => .completed { u with status := .COMPLETED }
  | p :: rest, u =>
    if (stepConsumer p u).status = .HANDLED then
      .completed { stepConsumer p u with status := .COMPLETED }
    else if (stepConsumer p u).status = .ERROR then
      .raised p.name (stepConsumer p u).error { stepConsumer p u with status := .COMPLETED }
    else
      runChain rest (stepConsumer p u)

/-- Prefix traversal helper: `some v` when the given processors all ran and
none stopped the chain (no `HANDLED`, no `ERROR`), leaving context `v`;
`none` when the chain stopped inside the prefix. -/
def stepAll : List Processor → AssetUpdate → Option AssetUpdate
  | [], u => some u
  | p :: rest, u =>
    if (stepConsumer p u).status = .HANDLED then none
    else if (stepConsumer p u).status = .ERROR then none
    else stepAll rest (stepConsumer p u)

/-- Why the shared validator dropped an event. -/
inductive DropReason where
  | futureTimestamp
  | staleTimestamp
  | constraintViolation
deriving DecidableEq, Repr

/-- Outcome of the shared validator + chain
(`processUpdate(asset, attribute, attributeEvent, northbound)`): either the
event was dropped by a validator step (carrying the untouched attribute), or
validation succeeded, the attribute was mutated and the chain ran on the
constructed `AssetUpdate`. -/
inductive ProcessOutcome where
  | dropped (reason : DropReason) (attr : AssetAttribute)
  | chained (attr : AssetAttribute) (outcome : ChainOutcome)

/-- The `AssetUpdate` constructed after successful validation (source lines
282-289): `new AssetUpdate(asset, attribute, lastStateEvent.getValue(),
lastStateEvent.getTimestamp(), northbound)` where `attribute` is the mutated
attribute and `lastStateEvent` the state captured before mutation.  Initial
status is `PENDING` per the spec, no error. -/
def initialUpdate (asset : ServerAsset) (mutated : AssetAttribute) (ev : AttributeEvent)
    (lastState : AttributeState) (northbound : Bool) : AssetUpdate :=
  { asset := asset
    attr := mutated
    value := ev.value
    timestamp := ev.timestamp
    oldValue := lastState.value
    oldTimestamp := lastState.timestamp
    northbound := northbound
    status := .PENDING
    error := none }

/-- The shared validator `processUpdate(asset, attribute, attributeEvent,
northbound)` (source lines 251-290), with `now` standing for
`System.currentTimeMillis()`:
1. drop if `attributeEvent.getTimestamp() - now > 1000` (future-timestamp);
2. capture `lastStateEvent = attr.getStateEvent()`; drop if
   `lastStateEvent.getTimestamp() >= 0` and
   `attributeEvent.getTimestamp() <= lastStateEvent.getTimestamp()` (stale);
3. `attr.setValue(value, timestamp)`; drop on the thrown
   `IllegalArgumentException` (constraint violation);
then build the `AssetUpdate` from the mutated attribute and the captured
previous state and run the processing chain. -/
def processUpdateOn (asset : ServerAsset) (attr : AssetAttribute) (ev : AttributeEvent)
    (now : Int) (northbound : Bool) (ps : List Processor) : ProcessOutcome :=
  if ev.timestamp - now > 1000 then
    .dropped .futureTimestamp attr
  else if 0 ≤ attr.getStateEvent.timestamp ∧ ev.timestamp ≤ attr.getStateEvent.timestamp then
    .dropped .staleTimestamp attr
  else
    match attr.setValue ev.value ev.timestamp with
    | none => .dropped .constraintViolation attr
    | some mutated =>
      .chained mutated (runChain ps (initialUpdate asset mutated ev attr.getStateEvent northbound))

/-- Outcome of the southbound entry point `updateAttributeValue`.
`invalidOperation` models the `IllegalArgumentException` raised synchronously
to the caller for agent assets; the other non-`processed` outcomes are silent
drops (logged only). -/
inductive ClientOutcome where
  | assetNotFound
  | invalidOperation
  | attributeNotFound
  | readOnlyIgnored
  | processed (result : ProcessOutcome)

/-- The southbound entry point `updateAttributeValue(attributeEvent)` (source
lines 175-210), with `find` standing for `assetStorageService.find`:
drop if the asset does not exist; throw `IllegalArgumentException` if the
asset is of the reserved `AGENT` type; drop if the named attribute does not
exist; drop if the attribute is read-only; otherwise run the shared validator
with `northbound = false`. -/
def updateAttributeValue (find : String → Option ServerAsset) (ps : List Processor)
    (now : Int) (ev : AttributeEvent) : ClientOutcome :=
  match find ev.entityId with
  | none => .assetNotFound
  | some asset =>
    if asset.wellKnownType = .AGENT then
      .invalidOperation
    else
      match asset.attributes.find? (fun a => a.name == ev.attributeName) with
      | none => .attributeNotFound
      | some attr =>
        if attr.readOnly then
          .readOnlyIgnored
        else
          .processed (processUpdateOn asset attr ev now false ps)

/-- Outcome of the northbound entry point `processSensorUpdate`.
`nullPointerRaised` models the `NullPointerException` escaping to the caller
when the asset lookup returns null: the guard at source lines 219-224
(`if (thing == null || ...) return;`) is commented out, and the code proceeds
to `new AssetAttributes(thing)` with a null `thing` (the `AssetAttributes`
class is not under `src/`; modelled from the spec, whose data model wraps the
asset's own attribute collection, so constructing it dereferences the missing
asset).  `unlinkedDropped` models the silent drop when the attribute does not
resolve to a valid, live agent link (`ThingAttribute.get` returns null, also
when the named attribute itself is absent). -/
inductive SensorOutcome where
  | nullPointerRaised
  | unlinkedDropped
  | processed (result : ProcessOutcome)

/-- The northbound entry point `processSensorUpdate(attributeEvent)` (source
lines 217-249): look up the asset (no null guard — see `SensorOutcome`),
look up the attribute and convert it to a `ThingAttribute` (null when not
linked to an agent: dropped), then run the shared validator with
`northbound = true`; protocols may write to read-only attributes, so no
read-only check. -/
def processSensorUpdate (find : String → Option ServerAsset) (ps : List Processor)
    (now : Int) (ev : AttributeEvent) : SensorOutcome :=
  match find ev.entityId with
  | none => .nullPointerRaised
  | some thing =>
    match thing.attributes.find? (fun a => a.name == ev.attributeName) with
    | none => .unlinkedDropped
    | some attr =>
      if attr.linked then
        .processed (processUpdateOn thing attr ev now true ps)
      else
        .unlinkedDropped

/-! ## Helper lemmas about the processing chain -/

/-- One-step unfolding of `runChain` on a non-empty processor list. -/
theorem runChain_cons (p : Processor) (rest : List Processor) (u : AssetUpdate) :
    runChain (p :: rest) u =
      if (stepConsumer p u).status = .HANDLED then
        .completed { stepConsumer p u with status := .COMPLETED }
      else if (stepConsumer p u).status = .ERROR then
        .raised p.name (stepConsumer p u).error { stepConsumer p u with status := .COMPLETED }
      else
        runChain rest (stepConsumer p u) := rfl

/-- If a prefix of the chain runs to completion without stopping, the whole
chain behaves like the remaining suffix started from the reached context. -/
theorem stepAll_append_runChain (pre l : List Processor) (u v : AssetUpdate)
    (h : stepAll pre u = some v) :
    runChain (pre ++ l) u = runChain l v := by
  induction pre generalizing u with
  | nil =>
    simp only [stepAll, Option.some.injEq] at h
    subst h
    simp only [List.nil_append]
  | cons p rest ih =>
    by_cases h1 : (stepConsumer p u).status = .HANDLED
    · simp [stepAll, h1] at h
    · by_cases h2 : (stepConsumer p u).status = .ERROR
      · simp [stepAll, h1, h2] at h
      · simp only [stepAll, if_neg h1, if_neg h2] at h
        rw [List.cons_append, runChain_cons, if_neg h1, if_neg h2]
        exact ih _ h

/-- A prefix that does not stop the chain never touches the context's error
field: the catch block is the only writer, and it also stops the chain. -/
theorem stepAll_error (pre : List Processor) (u v : AssetUpdate)
    (h : stepAll pre u = some v) : v.error = u.error := by
  induction pre generalizing u with
  | nil =>
    simp only [stepAll, Option.some.injEq] at h
    subst h
    rfl
  | cons p rest ih =>
    by_cases h1 : (stepConsumer p u).status = .HANDLED
    · simp [stepAll, h1] at h
    · by_cases h2 : (stepConsumer p u).status = .ERROR
      · simp [stepAll, h1, h2] at h
      · simp only [stepAll, if_neg h1, if_neg h2] at h
        rw [ih _ h]
        cases hp : p.accept u with
        | ok val st => simp [stepConsumer, hp]
        | thrown val st t =>
          exact absurd (by simp [stepConsumer, hp]) h2

/-! ## Concrete fixtures used by witnesses -/

/-- A non-read-only, linked attribute that accepts values below 100 and has
never been set (sentinel timestamp -1). -/
def attrTemp : AssetAttribute :=
  { name := "temperature"
    currentValue := 0
    lastUpdateTimestamp := -1
    readOnly := false
    linked := true
    accepts := fun v => v < 100 }

/-- `attrTemp` after accepting value 21 at timestamp 100. -/
def attrTemp100 : AssetAttribute :=
  { attrTemp with currentValue := 21, lastUpdateTimestamp := 100 }

/-- A thing asset owning `attrTemp`. -/
def assetThing : ServerAsset :=
  { id := "thing1", wellKnownType := .THING, attributes := [attrTemp] }

/-- A consumer that continues the chain, leaving the value alone. -/
def procContinueA : Processor :=
  { name := "A", accept := fun u => .ok u.value .CONTINUE }

/-- A consumer that throws with its status still untouched. -/
def procThrowsB : Processor :=
  { name := "B", accept := fun u => .thrown u.value .CONTINUE "boom" }

/-- A consumer that marks the context `HANDLED`. -/
def procHandledC : Processor :=
  { name := "C", accept := fun u => .ok u.value .HANDLED }

/-- A consumer that first sets `HANDLED` on the context and then throws. -/
def procThrowsAfterHandled : Processor :=
  { name := "BH", accept := fun u => .thrown u.value .HANDLED "late boom" }

/-- A consumer that sets `ERROR` on the context without throwing. -/
def procSetsError : Processor :=
  { name := "E", accept := fun u => .ok u.value .ERROR }

/-! ## Claim theorems -/

/-- C1: for every attribute whose last recorded timestamp is ≥ 0, an event
whose timestamp is ≤ that last recorded timestamp is dropped before any
consumer runs (the outcome is a `dropped` carrying the untouched attribute and
does not depend on the processor list), so `currentValue` and
`lastUpdateTimestamp` are unchanged; the drop reason is the stale-timestamp
check unless the event is additionally more than 1000 ms in the future, in
which case the earlier future-timestamp check already drops it. -/
theorem C1_stale_event_dropped (asset : ServerAsset) (attr : AssetAttribute)
    (ev : AttributeEvent) (now : Int) (nb : Bool) (ps : List Processor)
    (hlast : 0 ≤ attr.lastUpdateTimestamp)
    (hstale : ev.timestamp ≤ attr.lastUpdateTimestamp) :
    processUpdateOn asset attr ev now nb ps =
      .dropped (if ev.timestamp - now > 1000 then .futureTimestamp else .staleTimestamp)
        attr := by
  unfold processUpdateOn
  by_cases hf : ev.timestamp - now > 1000
  · rw [if_pos hf, if_pos hf]
  · rw [if_neg hf, if_neg hf, if_pos ⟨hlast, hstale⟩]

/-- Witness for C1: the attribute has accepted e1 = (21, ts 100); the later
submission e2 = (22, ts 50) and the exact replay of e1 are both dropped with
the attribute still holding e1's value 21 and timestamp 100 (the monotonicity
scenario of the spec, evaluated with `now = 100` and an arbitrary non-empty
processor list). -/
theorem C1_stale_event_dropped_witness :
    processUpdateOn assetThing attrTemp ⟨"thing1", "temperature", 21, 100⟩ 100 false [] =
      .chained attrTemp100 (.completed
        { initialUpdate assetThing attrTemp100 ⟨"thing1", "temperature", 21, 100⟩
            attrTemp.getStateEvent false with status := .COMPLETED })
    ∧ processUpdateOn assetThing attrTemp100 ⟨"thing1", "temperature", 22, 50⟩ 100 false
        [procContinueA] = .dropped .staleTimestamp attrTemp100
    ∧ processUpdateOn assetThing attrTemp100 ⟨"thing1", "temperature", 21, 100⟩ 100 false
        [procContinueA] = .dropped .staleTimestamp attrTemp100 := by
  refine ⟨rfl, ?_, ?_⟩
  · exact C1_stale_event_dropped assetThing attrTemp100 ⟨"thing1", "temperature", 22, 50⟩
      100 false [procContinueA] (by decide) (by decide)
  · exact C1_stale_event_dropped assetThing attrTemp100 ⟨"thing1", "temperature", 21, 100⟩
      100 false [procContinueA] (by decide) (by decide)

/-- C8: an event whose timestamp exceeds `now` by more than 1000 ms is dropped
by the first validator step, before the monotonicity and constraint checks,
with the attribute unchanged and independently of the processor list; an
event at most 1000 ms in the future is never rejected by this check. -/
theorem C8_future_timestamp_check (asset : ServerAsset) (attr : AssetAttribute)
    (ev : AttributeEvent) (now : Int) (nb : Bool) (ps : List Processor) :
    (ev.timestamp - now > 1000 →
      processUpdateOn asset attr ev now nb ps = .dropped .futureTimestamp attr)
    ∧ (ev.timestamp - now ≤ 1000 →
      ∀ a, processUpdateOn asset attr ev now nb ps ≠ .dropped .futureTimestamp a) := by
  constructor
  · intro hf
    unfold processUpdateOn
    rw [if_pos hf]
  · intro hle a
    unfold processUpdateOn
    rw [if_neg (by omega)]
    split
    · simp
    · split <;> simp

/-- Witness for C8: with `now = 0`, an event 5000 ms in the future is dropped
as a future timestamp even though the attribute would accept it, while an
event exactly 1000 ms in the future is not rejected by the future-timestamp
check. -/
theorem C8_future_timestamp_check_witness :
    processUpdateOn assetThing attrTemp ⟨"thing1", "temperature", 21, 5000⟩ 0 false
      [procContinueA] = .dropped .futureTimestamp attrTemp
    ∧ ∀ a, processUpdateOn assetThing attrTemp ⟨"thing1", "temperature", 21, 1000⟩ 0 false
        [procContinueA] ≠ .dropped .futureTimestamp a := by
  constructor
  · exact (C8_future_timestamp_check assetThing attrTemp ⟨"thing1", "temperature", 21, 5000⟩
      0 false [procContinueA]).1 (by decide)
  · exact (C8_future_timestamp_check assetThing attrTemp ⟨"thing1", "temperature", 21, 1000⟩
      0 false [procContinueA]).2 (by decide)

/-- C5: whenever the shared validator rejects a submission (future timestamp,
stale timestamp, or the constraint check performed by attempting to apply the
event's value via `setValue`), the attribute carried by the outcome is exactly
the original attribute (`currentValue` and `lastUpdateTimestamp` unchanged)
and the same rejection is produced for every processor list (no consumer is
invoked); moreover a constraint rejection means precisely that applying the
event's value to the attribute failed. -/
theorem C5_rejection_side_effect_free (asset : ServerAsset) (attr : AssetAttribute)
    (ev : AttributeEvent) (now : Int) (nb : Bool) (ps : List Processor)
    (r : DropReason) (a : AssetAttribute)
    (h : processUpdateOn asset attr ev now nb ps = .dropped r a) :
    a = attr
    ∧ (∀ ps2, processUpdateOn asset attr ev now nb ps2 = .dropped r a)
    ∧ (r = .constraintViolation → attr.setValue ev.value ev.timestamp = none) := by
  unfold processUpdateOn at h
  by_cases hf : ev.timestamp - now > 1000
  · rw [if_pos hf] at h
    simp only [ProcessOutcome.dropped.injEq] at h
    obtain ⟨hr, ha⟩ := h
    subst hr; subst ha
    refine ⟨rfl, fun ps2 => ?_, fun hc => absurd hc (by decide)⟩
    unfold processUpdateOn
    rw [if_pos hf]
  · rw [if_neg hf] at h
    by_cases hs : 0 ≤ attr.getStateEvent.timestamp ∧ ev.timestamp ≤ attr.getStateEvent.timestamp
    · rw [if_pos hs] at h
      simp only [ProcessOutcome.dropped.injEq] at h
      obtain ⟨hr, ha⟩ := h
      subst hr; subst ha
      refine ⟨rfl, fun ps2 => ?_, fun hc => absurd hc (by decide)⟩
      unfold processUpdateOn
      rw [if_neg hf, if_pos hs]
    · rw [if_neg hs] at h
      cases hsv : attr.setValue ev.value ev.timestamp with
      | none =>
        rw [hsv] at h
        simp only [ProcessOutcome.dropped.injEq] at h
        obtain ⟨hr, ha⟩ := h
        subst hr; subst ha
        refine ⟨rfl, fun ps2 => ?_, fun _ => rfl⟩
        unfold processUpdateOn
        rw [if_neg hf, if_neg hs, hsv]
      | some mutated =>
        rw [hsv] at h
        exact absurd h (by simp)

/-- Witness for C5: the value 200 violates `attrTemp`'s constraint
(`accepts` requires values below 100), so the submission is dropped as a
constraint violation with the attribute unchanged; applying C5 yields the
unchanged attribute, independence from the processor list, and the failed
`setValue`. -/
theorem C5_rejection_side_effect_free_witness :
    attrTemp = attrTemp
    ∧ (∀ ps2, processUpdateOn assetThing attrTemp ⟨"thing1", "temperature", 200, 10⟩ 0 false
        ps2 = .dropped .constraintViolation attrTemp)
    ∧ (DropReason.constraintViolation = .constraintViolation →
        attrTemp.setValue 200 10 = none) :=
  C5_rejection_side_effect_free assetThing attrTemp ⟨"thing1", "temperature", 200, 10⟩ 0 false
    [procContinueA] .constraintViolation attrTemp rfl

/-- C2: if validation succeeds (the event is fresh, not stale, and the value
is accepted, mutating the attribute to `attr1`), a prefix of the chain runs
without stopping and the next consumer's invocation throws, then the outcome
does not depend on the consumers after it (none of them is invoked), the
context's final status is `COMPLETED`, a failure naming the offending
consumer and wrapping the thrown cause is raised synchronously to the caller,
and the outcome still carries the mutated attribute `attr1`: the mutation was
committed before the chain ran and is not rolled back. -/
theorem C2_consumer_throw_escalates (asset : ServerAsset) (attr attr1 : AssetAttribute)
    (ev : AttributeEvent) (now : Int) (nb : Bool)
    (pre post : List Processor) (p : Processor)
    (v : AssetUpdate) (val : Int) (st : Status) (t : String)
    (hfresh : ev.timestamp - now ≤ 1000)
    (hmono : ¬(0 ≤ attr.getStateEvent.timestamp ∧ ev.timestamp ≤ attr.getStateEvent.timestamp))
    (hset : attr.setValue ev.value ev.timestamp = some attr1)
    (hpre : stepAll pre (initialUpdate asset attr1 ev attr.getStateEvent nb) = some v)
    (hthrow : p.accept v = .thrown val st t) :
    processUpdateOn asset attr ev now nb (pre ++ p :: post) =
      .chained attr1 (.raised p.name (some t)
        { v with value := val, status := .COMPLETED, error := some t }) := by
  unfold processUpdateOn
  rw [if_neg (by omega), if_neg hmono, hset]
  refine congrArg (ProcessOutcome.chained attr1) ?_
  rw [stepAll_append_runChain _ _ _ _ hpre]
  have hstep : stepConsumer p v = { v with value := val, status := .ERROR, error := some t } :=
    by simp [stepConsumer, hthrow]
  rw [runChain_cons, hstep]
  simp

/-- Witness for C2: with consumers [A, B, C] where B throws "boom", C is never
invoked (the theorem's right-hand side does not mention it), the attribute
mutation to (21, ts 100) is in the outcome, and the caller receives a raised
failure identifying B with cause "boom". -/
theorem C2_consumer_throw_escalates_witness :
    processUpdateOn assetThing attrTemp ⟨"thing1", "temperature", 21, 100⟩ 100 false
        ([procContinueA] ++ procThrowsB :: [procHandledC]) =
      .chained attrTemp100 (.raised "B" (some "boom")
        { { initialUpdate assetThing attrTemp100 ⟨"thing1", "temperature", 21, 100⟩
              attrTemp.getStateEvent false with status := .CONTINUE } with
            value := 21, status := .COMPLETED, error := some "boom" }) :=
  C2_consumer_throw_escalates assetThing attrTemp attrTemp100
    ⟨"thing1", "temperature", 21, 100⟩ 100 false [procContinueA] [procHandledC] procThrowsB
    { initialUpdate assetThing attrTemp100 ⟨"thing1", "temperature", 21, 100⟩
        attrTemp.getStateEvent false with status := .CONTINUE }
    21 .CONTINUE "boom" (by decide) (by decide) rfl rfl rfl

/-- C3: if a prefix of the chain runs without stopping and the next consumer
sets the context's status to `HANDLED`, then no subsequent consumer is
invoked (the outcome does not depend on the consumers after it), the final
status is `COMPLETED`, and the traversal returns normally (a `completed`
outcome, so no error is raised to the caller). -/
theorem C3_handled_short_circuits (pre post : List Processor) (p : Processor)
    (u v : AssetUpdate) (val : Int)
    (hpre : stepAll pre u = some v)
    (hhandled : p.accept v = .ok val .HANDLED) :
    runChain (pre ++ p :: post) u =
      .completed { v with value := val, status := .COMPLETED } := by
  rw [stepAll_append_runChain _ _ _ _ hpre]
  have hstep : stepConsumer p v = { v with value := val, status := .HANDLED } :=
    by simp [stepConsumer, hhandled]
  rw [runChain_cons, hstep]
  simp

/-- Witness for C3: with consumers [A, B, C] where A marks the context
`HANDLED`, B and C are never invoked and the traversal completes with status
`COMPLETED` and no raised failure. -/
theorem C3_handled_short_circuits_witness :
    runChain ([] ++ procHandledC :: [procContinueA, procThrowsB])
        (initialUpdate assetThing attrTemp100 ⟨"thing1", "temperature", 21, 100⟩
          attrTemp.getStateEvent false) =
      .completed { initialUpdate assetThing attrTemp100 ⟨"thing1", "temperature", 21, 100⟩
          attrTemp.getStateEvent false with value := 21, status := .COMPLETED } :=
  C3_handled_short_circuits [] [procContinueA, procThrowsB] procHandledC
    (initialUpdate assetThing attrTemp100 ⟨"thing1", "temperature", 21, 100⟩
      attrTemp.getStateEvent false)
    (initialUpdate assetThing attrTemp100 ⟨"thing1", "temperature", 21, 100⟩
      attrTemp.getStateEvent false)
    21 rfl rfl

/-- C9: if a consumer sets the context's status to `ERROR` without throwing,
the chain still stops (the outcome does not depend on later consumers) and a
failure is raised synchronously to the caller, but the raised failure carries
no cause: the context's error field starts out empty and is only populated by
the catch block when a consumer actually throws, and a throw stops the chain
immediately, so a non-throwing `ERROR` leaves it empty. -/
theorem C9_error_status_raises_without_cause (pre post : List Processor) (p : Processor)
    (u v : AssetUpdate) (val : Int)
    (herr : u.error = none)
    (hpre : stepAll pre u = some v)
    (herrset : p.accept v = .ok val .ERROR) :
    runChain (pre ++ p :: post) u =
      .raised p.name none { v with value := val, status := .COMPLETED } := by
  have hv : v.error = none := (stepAll_error _ _ _ hpre).trans herr
  rw [stepAll_append_runChain _ _ _ _ hpre]
  have hstep : stepConsumer p v = { v with value := val, status := .ERROR } :=
    by simp [stepConsumer, herrset]
  rw [runChain_cons, hstep]
  simp [hv]

/-- Witness for C9: consumer E sets `ERROR` without throwing on a freshly
constructed context; the chain raises a failure identifying E whose cause is
`none`, and the consumer after E is never invoked. -/
theorem C9_error_status_raises_without_cause_witness :
    runChain ([procContinueA] ++ procSetsError :: [procHandledC])
        (initialUpdate assetThing attrTemp100 ⟨"thing1", "temperature", 21, 100⟩
          attrTemp.getStateEvent false) =
      .raised "E" none
        { { initialUpdate assetThing attrTemp100 ⟨"thing1", "temperature", 21, 100⟩
              attrTemp.getStateEvent false with status := .CONTINUE } with
            value := 21, status := .COMPLETED } :=
  C9_error_status_raises_without_cause [procContinueA] [procHandledC] procSetsError
    (initialUpdate assetThing attrTemp100 ⟨"thing1", "temperature", 21, 100⟩
      attrTemp.getStateEvent false)
    { initialUpdate assetThing attrTemp100 ⟨"thing1", "temperature", 21, 100⟩
        attrTemp.getStateEvent false with status := .CONTINUE }
    21 rfl rfl rfl

/-- C10: if a consumer's invocation throws, the thrown exception takes
precedence over whatever status the consumer had set on the context before
throwing (the theorem holds for every such status, including `HANDLED`): the
catch block unconditionally overwrites the status with `ERROR`, so the chain
takes the escalation path (a raised failure carrying the thrown cause) and
never the handled-short-circuit path (a `completed` outcome). -/
theorem C10_throw_overrides_status (pre post : List Processor) (p : Processor)
    (u v : AssetUpdate) (val : Int) (st : Status) (t : String)
    (hpre : stepAll pre u = some v)
    (hthrow : p.accept v = .thrown val st t) :
    runChain (pre ++ p :: post) u =
      .raised p.name (some t) { v with value := val, status := .COMPLETED, error := some t }
    ∧ ∀ w, runChain (pre ++ p :: post) u ≠ .completed w := by
  have hrun : runChain (pre ++ p :: post) u =
      .raised p.name (some t)
        { v with value := val, status := .COMPLETED, error := some t } := by
    rw [stepAll_append_runChain _ _ _ _ hpre]
    have hstep : stepConsumer p v = { v with value := val, status := .ERROR, error := some t } :=
      by simp [stepConsumer, hthrow]
    rw [runChain_cons, hstep]
    simp
  exact ⟨hrun, fun w hw => by rw [hrun] at hw; exact absurd hw (by simp)⟩

/-- Witness for C10: consumer BH sets `HANDLED` on the context and then
throws; the chain still takes the escalation path with cause "late boom" and
does not complete normally. -/
theorem C10_throw_overrides_status_witness :
    runChain ([] ++ procThrowsAfterHandled :: [procContinueA])
        (initialUpdate assetThing attrTemp100 ⟨"thing1", "temperature", 21, 100⟩
          attrTemp.getStateEvent false) =
      .raised "BH" (some "late boom")
        { initialUpdate assetThing attrTemp100 ⟨"thing1", "temperature", 21, 100⟩
            attrTemp.getStateEvent false with
          value := 21, status := .COMPLETED, error := some "late boom" }
    ∧ ∀ w, runChain ([] ++ procThrowsAfterHandled :: [procContinueA])
        (initialUpdate assetThing attrTemp100 ⟨"thing1", "temperature", 21, 100⟩
          attrTemp.getStateEvent false) ≠ .completed w :=
  C10_throw_overrides_status [] [procContinueA] procThrowsAfterHandled
    (initialUpdate assetThing attrTemp100 ⟨"thing1", "temperature", 21, 100⟩
      attrTemp.getStateEvent false)
    (initialUpdate assetThing attrTemp100 ⟨"thing1", "temperature", 21, 100⟩
      attrTemp.getStateEvent false)
    21 .HANDLED "late boom" rfl rfl

/-! ## Entry-point claims -/

/-- An agent asset (reserved type) owning `attrTemp`. -/
def assetAgent : ServerAsset :=
  { id := "agent1", wellKnownType := .AGENT, attributes := [attrTemp] }

/-- A read-only attribute. -/
def attrReadOnly : AssetAttribute :=
  { name := "sensor"
    currentValue := 5
    lastUpdateTimestamp := 10
    readOnly := true
    linked := true
    accepts := fun _ => true }

/-- A thing asset owning the read-only attribute. -/
def assetWithReadOnly : ServerAsset :=
  { id := "thing2", wellKnownType := .THING, attributes := [attrReadOnly] }

/-- An asset lookup knowing the three fixture assets. -/
def findFixture : String → Option ServerAsset := fun idt =>
  if idt = "thing1" then some assetThing
  else if idt = "agent1" then some assetAgent
  else if idt = "thing2" then some assetWithReadOnly
  else none

/-- C4: a southbound submission whose resolved asset is of the reserved
`AGENT` type yields the `invalidOperation` outcome (the
`IllegalArgumentException` raised synchronously to the caller), for every
processor list and every clock value: no consumer is invoked and no attribute
is mutated (the outcome carries no processing result). -/
theorem C4_agent_edit_raises (find : String → Option ServerAsset) (ps : List Processor)
    (now : Int) (ev : AttributeEvent) (asset : ServerAsset)
    (hfind : find ev.entityId = some asset)
    (hagent : asset.wellKnownType = .AGENT) :
    updateAttributeValue find ps now ev = .invalidOperation := by
  unfold updateAttributeValue
  rw [hfind]
  simp [hagent]

/-- Witness for C4: a client update addressed to the agent asset is rejected
with `invalidOperation` even though its attribute exists, is writable and the
value is acceptable. -/
theorem C4_agent_edit_raises_witness :
    updateAttributeValue findFixture [procContinueA] 0 ⟨"agent1", "temperature", 21, 100⟩ =
      .invalidOperation :=
  C4_agent_edit_raises findFixture [procContinueA] 0 ⟨"agent1", "temperature", 21, 100⟩
    assetAgent rfl rfl

/-- C7: a southbound submission targeting an existing attribute flagged
read-only yields the silent `readOnlyIgnored` outcome (a drop, not a raise),
for every processor list and every clock value: the attribute is never
mutated and no consumer is ever invoked. -/
theorem C7_readOnly_southbound_dropped (find : String → Option ServerAsset)
    (ps : List Processor) (now : Int) (ev : AttributeEvent)
    (asset : ServerAsset) (attr : AssetAttribute)
    (hfind : find ev.entityId = some asset)
    (hagent : asset.wellKnownType ≠ .AGENT)
    (hattr : asset.attributes.find? (fun a => a.name == ev.attributeName) = some attr)
    (hro : attr.readOnly = true) :
    updateAttributeValue find ps now ev = .readOnlyIgnored := by
  unfold updateAttributeValue
  rw [hfind]
  simp only [if_neg hagent, hattr, hro, if_pos]

/-- Witness for C7: a client update to the read-only attribute of `thing2` is
silently ignored, with an event that would otherwise pass every validator
step. -/
theorem C7_readOnly_southbound_dropped_witness :
    updateAttributeValue findFixture [procContinueA] 0 ⟨"thing2", "sensor", 6, 20⟩ =
      .readOnlyIgnored :=
  C7_readOnly_southbound_dropped findFixture [procContinueA] 0 ⟨"thing2", "sensor", 6, 20⟩
    assetWithReadOnly attrReadOnly rfl (by decide) rfl rfl

/-- C6 (code evaluated at the failing input): a northbound submission whose
`entityId` does not resolve to an existing asset does not take the silent
drop path the spec describes: the null guard at source lines 219-224 is
commented out, so the code dereferences the missing asset when constructing
`AssetAttributes` and a `NullPointerException` escapes to the caller, for
every processor list and every clock value (no consumer is invoked and no
attribute is mutated, but the caller does receive an exception). -/
theorem C6_missing_asset_escapes (find : String → Option ServerAsset)
    (ps : List Processor) (now : Int) (ev : AttributeEvent)
    (hfind : find ev.entityId = none) :
    processSensorUpdate find ps now ev = .nullPointerRaised
    ∧ processSensorUpdate find ps now ev ≠ .unlinkedDropped := by
  unfold processSensorUpdate
  rw [hfind]
  exact ⟨rfl, by simp⟩

/-- Witness for C6: the fixture store resolves no asset named "ghost", and the
sensor update for it ends in the escaping `NullPointerException` rather than
a silent drop. -/
theorem C6_missing_asset_escapes_witness :
    processSensorUpdate findFixture [procContinueA] 0 ⟨"ghost", "temperature", 21, 100⟩ =
      .nullPointerRaised
    ∧ processSensorUpdate findFixture [procContinueA] 0 ⟨"ghost", "temperature", 21, 100⟩ ≠
      .unlinkedDropped :=
  C6_missing_asset_escapes findFixture [procContinueA] 0 ⟨"ghost", "temperature", 21, 100⟩ rfl
